import Mathlib

/-!
Shallow embedding of the Remembar MCP adapter
(src/poke-mcp-server/src/server.py) and verification of its
natural-language specification.

The adapter exposes three operations: add_memory, search_memory and
get_server_info.  Each maps to one outbound HTTP call; the HTTP layer is
modelled as an oracle function from the request payload the code builds to
an outcome: either a response (status code plus decoded JSON body) or a
raised exception.  Python exceptions relevant here form two classes:
requests.exceptions.RequestException and every other Exception; a JSON
decoding failure inside response.json() is one of these as well, so the
outcome oracle covers it.  Numeric JSON distances (floats in Python, with
an exact 0.5 threshold) are modelled as rationals.  The string literals
reproduce the exact character sequences stored in the source file
(including its mojibake-encoded marker glyphs, written here with
unicode escapes).
-/

namespace RemembarMCP

/-- The two exception classes distinguished by the except clauses. -/
inductive PyExn where
  | requestException (msg : String)
  | otherException (msg : String)
deriving DecidableEq

/-- Outcome of one outbound HTTP call including body decoding: a status
code with a decoded body, or a raised exception. -/
inductive HttpOutcome (β : Type) where
  | response (status : Nat) (body : β)
  | raised (e : PyExn)
deriving DecidableEq

/-- Models the Python truthiness default `tags if tags else []`. -/
def py_truthy_list (tags : Option (List String)) : List String :=
  match tags with
  | none => []
  | some ts => if ts = [] then [] else ts

/-- Models lines 42-43: `if priority not in ["low", "med", "high"]:
priority = "med"`. -/
def validated_priority (priority : String) : String :=
  if priority = "low" ∨ priority = "med" ∨ priority = "high" then priority
  else "med"

/-- The JSON payload add_memory posts to the /add_note endpoint
(lines 46-53). -/
structure AddNotePayload where
  tenant_id : String
  text : String
  modality : String
  priority : String
  tags : List String
  linked_entity : Option String
deriving DecidableEq

def add_note_payload (tenant_id text priority : String)
    (tags : Option (List String)) : AddNotePayload :=
  { tenant_id := tenant_id,
    text := text,
    modality := "typed",
    priority := validated_priority priority,
    tags := py_truthy_list tags,
    linked_entity := none }

/-- The fields of the decoded /add_note JSON body that add_memory reads:
`data.get("ok")` truthiness and `data.get("note_id", "unknown")`. -/
structure AddNoteResponse where
  ok : Bool
  note_id : Option String
deriving DecidableEq

/-- Line 67 success string; the leading glyph is the exact three-character
sequence stored in the source file. -/
def memory_saved_msg (note_id text : String) : String :=
  "âœ“ Memory saved successfully! (ID: " ++ note_id
    ++ ")\n\nI'll remember: " ++ text

/-- Line 69 failure string. -/
def save_failed_msg : String := "Failed to save memory. Please try again."

/-- Lines 71 and 143: the non-200 error string, identical text in both
operations. -/
def db_error_msg (status : Nat) : String :=
  "Error connecting to memory database. Status: " ++ toString status

/-- Line 74: the RequestException handler string of add_memory. -/
def add_network_error_msg : String :=
  "Network error: Unable to reach memory database. Please check your connection."

/-- Line 76: the generic Exception handler string of add_memory. -/
def add_generic_error_msg (e : String) : String :=
  "Error saving memory: " ++ e

/-- The body of add_memory's try block after the HTTP call resolved to
`outcome` (lines 63-71); a raised exception propagates to the handlers. -/
def add_memory_try (text : String) (outcome : HttpOutcome AddNoteResponse) :
    Except PyExn String :=
  match outcome with
  | .raised e => .error e
  | .response status data =>
      if status = 200 then
        if data.ok then
          .ok (memory_saved_msg (data.note_id.getD "unknown") text)
        else
          .ok save_failed_msg
      else
        .ok (db_error_msg status)

/-- The two except clauses: RequestException first, then Exception; both
exception classes are caught and turned into a normal string return. -/
def run_with_handlers (body : Except PyExn String)
    (on_request_exc : String → String) (on_other_exc : String → String) :
    Except PyExn String :=
  match body with
  | .ok s => .ok s
  | .error (.requestException m) => .ok (on_request_exc m)
  | .error (.otherException m) => .ok (on_other_exc m)

/-- add_memory (lines 24-76).  `http` is the oracle for the single
requests.post call, applied to the payload the code builds. -/
def add_memory (tenant_id text priority : String) (tags : Option (List String))
    (http : AddNotePayload → HttpOutcome AddNoteResponse) :
    Except PyExn String :=
  run_with_handlers
    (add_memory_try text (http (add_note_payload tenant_id text priority tags)))
    (fun _ => add_network_error_msg)
    add_generic_error_msg

/-- The JSON payload search_memory posts to /search_semantic
(lines 96-101); n_results is capped with `min(n_results, 10)`. -/
structure SearchPayload where
  tenant_id : String
  query_text : String
  collections : List String
  n_results : Int
deriving DecidableEq

def search_payload (tenant_id query : String) (n_results : Int) :
    SearchPayload :=
  { tenant_id := tenant_id,
    query_text := query,
    collections := ["entities_stream_v1", "user_notes_v1"],
    n_results := min n_results 10 }

/-- One decoded search match: `result.get("document", "")`,
`result.get("distance", 0)` and the key set of `result.get("metadata", {})`.
Distances (Python floats) are modelled as rationals. -/
structure SearchResultItem where
  document : Option String
  distance : Option ℚ
  metadata : List String
deriving DecidableEq

/-- The fields of the decoded /search_semantic JSON body read by the code:
`data.get("ok")` truthiness and `data.get("results", [])`. -/
structure SearchResponse where
  ok : Bool
  results : Option (List SearchResultItem)
deriving DecidableEq

/-- Line 127: `confidence = "🔥" if distance < 0.5 else "✓"`, with the two
marker strings exactly as the character sequences stored in the source. -/
def confidence_marker (distance : ℚ) : String :=
  if distance < (0.5 : ℚ) then "ðŸ”¥"
  else "âœ“"

/-- Lines 131-135: the provenance context appended from metadata; the
frame_ts branch takes precedence over the note_id branch (elif). -/
def metadata_context (metadata : List String) : String :=
  if "frame_ts" ∈ metadata then "   (from visual memory)\n"
  else if "note_id" ∈ metadata then "   (from your notes)\n"
  else ""

/-- One iteration of the result-formatting loop (lines 122-137): the
confidence marker and document line, the metadata context, and the
blank-line separator. -/
def format_result (r : SearchResultItem) : String :=
  confidence_marker (r.distance.getD 0) ++ " " ++ r.document.getD "" ++ "\n"
    ++ metadata_context r.metadata ++ "\n"

/-- Line 120 header: reports the full length of the returned match list. -/
def found_header (n : Nat) : String :=
  "Found " ++ toString n ++ " relevant memories:\n\n"

/-- The full response text built by the loop before `.strip()`: the header
plus the formatted blocks of only the first five results
(`results[:5]`). -/
def search_response_text (results : List SearchResultItem) : String :=
  found_header results.length
    ++ String.join ((results.take 5).map format_result)

/-- Line 117: the empty-match message, quoting the original query. -/
def no_match_msg (query : String) : String :=
  "I couldn't find any memories matching '" ++ query
    ++ "'. Try rephrasing or add this as a new memory!"

/-- Line 141 failure string. -/
def search_failed_msg : String :=
  "Failed to search memories. Please try again."

/-- Line 146: the RequestException handler string of search_memory. -/
def search_network_error_msg : String :=
  "Network error: Unable to reach memory database. Please check your connection."

/-- Line 148: the generic Exception handler string of search_memory. -/
def search_generic_error_msg (e : String) : String :=
  "Error searching memories: " ++ e

/-- Python str.strip on the whitespace characters occurring here
(space, tab, newline, carriage return): drop them from both ends. -/
def strip_chars (l : List Char) : List Char :=
  ((l.dropWhile Char.isWhitespace).reverse.dropWhile Char.isWhitespace).reverse

/-- Models `response_text.strip()` (line 139). -/
def py_strip (s : String) : String := String.mk (strip_chars s.data)

/-- The body of search_memory's try block after the HTTP call resolved to
`outcome` (lines 111-143). -/
def search_memory_try (query : String) (outcome : HttpOutcome SearchResponse) :
    Except PyExn String :=
  match outcome with
  | .raised e => .error e
  | .response status data =>
      if status = 200 then
        if data.ok then
          let results := data.results.getD []
          if results = [] then .ok (no_match_msg query)
          else .ok (py_strip (search_response_text results))
        else .ok search_failed_msg
      else .ok (db_error_msg status)

/-- search_memory (lines 80-148). -/
def search_memory (tenant_id query : String) (n_results : Int)
    (http : SearchPayload → HttpOutcome SearchResponse) :
    Except PyExn String :=
  run_with_handlers
    (search_memory_try query (http (search_payload tenant_id query n_results)))
    (fun _ => search_network_error_msg)
    search_generic_error_msg

/-- Outcome of the health-check GET in get_server_info: a status code, or
any raised exception (the except clause does not inspect it). -/
inductive HealthOutcome where
  | response (status : Nat)
  | raised
deriving DecidableEq

/-- The record returned by get_server_info (lines 169-177). -/
structure ServerInfo where
  server_name : String
  version : String
  description : String
  chromadb_url : String
  chromadb_status : String
  tenant_id : String
  features : List String
deriving DecidableEq

/-- get_server_info (lines 152-177). -/
def get_server_info (chromadb_url tenant_id : String)
    (health : HealthOutcome) : ServerInfo :=
  let chromadb_status :=
    match health with
    | .response status => if status = 200 then "connected" else "disconnected"
    | .raised => "disconnected"
  { server_name := "RemembarMCP",
    version := "1.0.0",
    description := "Memory assistant for Alzheimer's patients",
    chromadb_url := chromadb_url,
    chromadb_status := chromadb_status,
    tenant_id := tenant_id,
    features := ["add_memory", "search_memory"] }

/-- A concrete six-element match list used as a test vector; the first
result carries both metadata keys. -/
def c10_results : List SearchResultItem :=
  [⟨some "keys on desk", some 0.25, ["frame_ts", "note_id"]⟩,
   ⟨some "wallet in coat", some 0.75, ["note_id"]⟩,
   ⟨some "glasses on shelf", none, []⟩,
   ⟨some "pills at noon", some 0.4, ["frame_ts"]⟩,
   ⟨some "door locked", some 1, ["note_id"]⟩,
   ⟨some "phone charging", some 2, []⟩]

/-! Helper lemmas shared by the claim theorems. -/

/-- Both except clauses return a string: the handler wrapper never
propagates either exception class. -/
theorem run_with_handlers_ok (body : Except PyExn String)
    (f g : String → String) :
    ∃ s : String, run_with_handlers body f g = Except.ok s :=
  match body with
  | .ok s => ⟨s, rfl⟩
  | .error (.requestException m) => ⟨f m, rfl⟩
  | .error (.otherException m) => ⟨g m, rfl⟩

/-- Strings whose first characters differ are distinct, whatever is
appended to the second. -/
theorem ne_append_of_head_ne (x y e : String) (c c' : Char)
    (hx : x.data.head? = some c) (hy : y.data.head? = some c')
    (hcc : c ≠ c') : x ≠ y ++ e := by
  intro h
  have hd := congrArg String.data h
  rw [String.data_append] at hd
  cases hyd : y.data with
  | nil => rw [hyd] at hy; exact Option.noConfusion hy
  | cons a t =>
      rw [hyd] at hy
      rw [hyd, List.cons_append] at hd
      rw [hd] at hx
      rw [List.head?_cons] at hx hy
      have h1 : a = c := Option.some.inj hx
      have h2 : a = c' := Option.some.inj hy
      exact hcc (h1 ▸ h2)

/-- Claim C1: no exposed operation raises past its own boundary: for every
input and every behaviour of the HTTP call, add_memory and search_memory
return a string normally and get_server_info returns a record. -/
theorem no_operation_raises (tenant_id text priority query url : String)
    (tags : Option (List String)) (n : Int)
    (httpA : AddNotePayload → HttpOutcome AddNoteResponse)
    (httpS : SearchPayload → HttpOutcome SearchResponse)
    (health : HealthOutcome) :
    (∃ s : String, add_memory tenant_id text priority tags httpA = Except.ok s) ∧
    (∃ s : String, search_memory tenant_id query n httpS = Except.ok s) ∧
    ∃ r : ServerInfo, get_server_info url tenant_id health = r :=
  ⟨run_with_handlers_ok _ _ _, run_with_handlers_ok _ _ _, _, rfl⟩

/-- Claim C2: every non-200 status from the service makes both add_memory
and search_memory return an error string containing that numeric status
code. -/
theorem non200_status_reported (tenant_id text priority query : String)
    (tags : Option (List String)) (n : Int) (status : Nat)
    (adata : AddNoteResponse) (sdata : SearchResponse)
    (httpA : AddNotePayload → HttpOutcome AddNoteResponse)
    (httpS : SearchPayload → HttpOutcome SearchResponse)
    (hA : httpA (add_note_payload tenant_id text priority tags)
        = .response status adata)
    (hS : httpS (search_payload tenant_id query n) = .response status sdata)
    (hstatus : status ≠ 200) :
    (∃ pre post : String,
        add_memory tenant_id text priority tags httpA
          = Except.ok (pre ++ toString status ++ post)) ∧
    ∃ pre post : String,
        search_memory tenant_id query n httpS
          = Except.ok (pre ++ toString status ++ post) := by
  constructor
  · refine ⟨"Error connecting to memory database. Status: ", "", ?_⟩
    rw [String.append_empty, add_memory, hA]
    simp only [add_memory_try]
    rw [if_neg hstatus]
    rfl
  · refine ⟨"Error connecting to memory database. Status: ", "", ?_⟩
    rw [String.append_empty, search_memory, hS]
    simp only [search_memory_try]
    rw [if_neg hstatus]
    rfl

/-- Witness for claim C2 at status 500. -/
theorem non200_status_reported_witness :
    (∃ pre post : String,
        add_memory "default_user" "keys on desk" "med" none
            (fun _ => .response 500 ⟨true, none⟩)
          = Except.ok (pre ++ toString 500 ++ post)) ∧
    ∃ pre post : String,
        search_memory "default_user" "keys" 5
            (fun _ => .response 500 ⟨true, none⟩)
          = Except.ok (pre ++ toString 500 ++ post) :=
  non200_status_reported "default_user" "keys on desk" "med" "keys" none 5 500
    ⟨true, none⟩ ⟨true, none⟩
    (fun _ => .response 500 ⟨true, none⟩) (fun _ => .response 500 ⟨true, none⟩)
    rfl rfl (by decide)

/-- Claim C3: a transport-level failure (RequestException) makes both
operations return the specific network-error string, and that string is
distinct from the generic-exception string for every exception text. -/
theorem network_error_distinct (tenant_id text priority query : String)
    (tags : Option (List String)) (n : Int) (msg : String)
    (httpA : AddNotePayload → HttpOutcome AddNoteResponse)
    (httpS : SearchPayload → HttpOutcome SearchResponse)
    (hA : httpA (add_note_payload tenant_id text priority tags)
        = .raised (.requestException msg))
    (hS : httpS (search_payload tenant_id query n)
        = .raised (.requestException msg)) :
    add_memory tenant_id text priority tags httpA
        = Except.ok add_network_error_msg ∧
    search_memory tenant_id query n httpS
        = Except.ok search_network_error_msg ∧
    (∀ e : String, add_network_error_msg ≠ add_generic_error_msg e) ∧
    ∀ e : String, search_network_error_msg ≠ search_generic_error_msg e := by
  refine ⟨?_, ?_, ?_, ?_⟩
  · rw [add_memory, hA]; rfl
  · rw [search_memory, hS]; rfl
  · intro e
    exact ne_append_of_head_ne _ "Error saving memory: " e 'N' 'E'
      (by decide) (by decide) (by decide)
  · intro e
    exact ne_append_of_head_ne _ "Error searching memories: " e 'N' 'E'
      (by decide) (by decide) (by decide)

/-- Witness for claim C3 at a concrete connection failure. -/
theorem network_error_distinct_witness :
    add_memory "default_user" "keys on desk" "med" none
        (fun _ => .raised (.requestException "connection refused"))
      = Except.ok add_network_error_msg ∧
    search_memory "default_user" "keys" 5
        (fun _ => .raised (.requestException "connection refused"))
      = Except.ok search_network_error_msg ∧
    (∀ e : String, add_network_error_msg ≠ add_generic_error_msg e) ∧
    ∀ e : String, search_network_error_msg ≠ search_generic_error_msg e :=
  network_error_distinct "default_user" "keys on desk" "med" "keys" none 5
    "connection refused"
    (fun _ => .raised (.requestException "connection refused"))
    (fun _ => .raised (.requestException "connection refused")) rfl rfl

/-- Claim C4: every priority outside low, med, high is silently replaced:
the payload sent to the service carries the default "med", and add_memory
still returns normally. -/
theorem invalid_priority_defaults (tenant_id text priority : String)
    (tags : Option (List String))
    (hp : priority ≠ "low" ∧ priority ≠ "med" ∧ priority ≠ "high") :
    (add_note_payload tenant_id text priority tags).priority = "med" ∧
    ∀ httpA : AddNotePayload → HttpOutcome AddNoteResponse,
      ∃ s : String, add_memory tenant_id text priority tags httpA
        = Except.ok s := by
  constructor
  · show validated_priority priority = "med"
    rw [validated_priority, if_neg]
    rintro (h | h | h)
    exacts [hp.1 h, hp.2.1 h, hp.2.2 h]
  · intro httpA
    exact run_with_handlers_ok _ _ _

/-- Witness for claim C4 at the out-of-range priority "urgent". -/
theorem invalid_priority_defaults_witness :
    (add_note_payload "default_user" "keys on desk" "urgent" none).priority
      = "med" ∧
    ∀ httpA : AddNotePayload → HttpOutcome AddNoteResponse,
      ∃ s : String, add_memory "default_user" "keys on desk" "urgent" none httpA
        = Except.ok s :=
  invalid_priority_defaults "default_user" "keys on desk" "urgent" none
    ⟨by decide, by decide, by decide⟩

/-- Claim C5: a 200 response with a true success flag makes add_memory
return a confirmation string that ends with the original text verbatim
and, when the response carries a note identifier, contains it. -/
theorem success_confirmation (tenant_id text priority : String)
    (tags : Option (List String)) (data : AddNoteResponse)
    (httpA : AddNotePayload → HttpOutcome AddNoteResponse)
    (hA : httpA (add_note_payload tenant_id text priority tags)
        = .response 200 data)
    (hok : data.ok = true) :
    ∃ s : String,
      add_memory tenant_id text priority tags httpA = Except.ok s ∧
      (∃ pre : String, s = pre ++ text) ∧
      ∀ nid : String, data.note_id = some nid →
        ∃ a b : String, s = a ++ (nid ++ b) := by
  obtain ⟨ok, note_id⟩ := data
  replace hok : ok = true := hok
  subst hok
  refine ⟨memory_saved_msg (note_id.getD "unknown") text, ?_, ⟨_, rfl⟩, ?_⟩
  · rw [add_memory, hA]; rfl
  · intro nid hnid
    replace hnid : note_id = some nid := hnid
    subst hnid
    refine ⟨"âœ“ Memory saved successfully! (ID: ",
      ")\n\nI'll remember: " ++ text, ?_⟩
    apply String.ext
    simp only [memory_saved_msg, Option.getD_some, String.data_append,
      List.append_assoc]

/-- Witness for claim C5 at a concrete success response. -/
theorem success_confirmation_witness :
    ∃ s : String,
      add_memory "default_user" "keys on desk" "med" none
          (fun _ => .response 200 ⟨true, some "note-77"⟩) = Except.ok s ∧
      (∃ pre : String, s = pre ++ "keys on desk") ∧
      ∀ nid : String,
        (⟨true, some "note-77"⟩ : AddNoteResponse).note_id = some nid →
        ∃ a b : String, s = a ++ (nid ++ b) :=
  success_confirmation "default_user" "keys on desk" "med" none
    ⟨true, some "note-77"⟩
    (fun _ => .response 200 ⟨true, some "note-77"⟩) rfl rfl

/-- Claim C6: the n_results value search_memory sends never exceeds 10,
whatever limit the caller requests; search_memory consults the HTTP oracle
exactly at that capped payload. -/
theorem search_limit_capped (tenant_id query : String) (n : Int) :
    (search_payload tenant_id query n).n_results ≤ 10 ∧
    ∀ http : SearchPayload → HttpOutcome SearchResponse,
      search_memory tenant_id query n http
        = run_with_handlers
            (search_memory_try query (http (search_payload tenant_id query n)))
            (fun _ => search_network_error_msg) search_generic_error_msg :=
  ⟨min_le_right n 10, fun _ => rfl⟩

/-- Claim C7: a 200/success answer with an empty match list makes
search_memory return the no-memories-found message, which contains the
original query text. -/
theorem empty_results_message (tenant_id query : String) (n : Int)
    (data : SearchResponse)
    (httpS : SearchPayload → HttpOutcome SearchResponse)
    (hS : httpS (search_payload tenant_id query n) = .response 200 data)
    (hok : data.ok = true) (hempty : data.results.getD [] = []) :
    search_memory tenant_id query n httpS = Except.ok (no_match_msg query) ∧
    ∃ pre post : String, no_match_msg query = pre ++ (query ++ post) := by
  obtain ⟨ok, results⟩ := data
  replace hok : ok = true := hok
  subst hok
  replace hempty : results.getD [] = [] := hempty
  constructor
  · rw [search_memory, hS]
    cases results with
    | none => rfl
    | some l =>
        replace hempty : l = [] := hempty
        subst hempty
        rfl
  · refine ⟨"I couldn't find any memories matching '",
      "'. Try rephrasing or add this as a new memory!", ?_⟩
    rw [no_match_msg, String.append_assoc]

/-- Witness for claim C7 at a concrete empty search answer. -/
theorem empty_results_message_witness :
    search_memory "default_user" "keys" 5
        (fun _ => .response 200 ⟨true, some []⟩)
      = Except.ok (no_match_msg "keys") ∧
    ∃ pre post : String, no_match_msg "keys" = pre ++ ("keys" ++ post) :=
  empty_results_message "default_user" "keys" 5 ⟨true, some []⟩
    (fun _ => .response 200 ⟨true, some []⟩) rfl rfl rfl

/-- Claim C8: get_server_info reports "connected" exactly when the health
check returns status 200, and "disconnected" exactly when it raises or
returns any other status. -/
theorem health_status_classification (url tenant_id : String)
    (health : HealthOutcome) :
    ((get_server_info url tenant_id health).chromadb_status = "connected"
        ↔ health = .response 200) ∧
    ((get_server_info url tenant_id health).chromadb_status = "disconnected"
        ↔ health ≠ .response 200) := by
  cases health with
  | raised =>
      have hst : (get_server_info url tenant_id .raised).chromadb_status
          = "disconnected" := rfl
      rw [hst]
      exact ⟨iff_of_false (by decide) (by decide), iff_of_true rfl (by decide)⟩
  | response status =>
      by_cases h : status = 200
      · subst h
        have hst : (get_server_info url tenant_id (.response 200)).chromadb_status
            = "connected" := rfl
        rw [hst]
        exact ⟨iff_of_true rfl rfl, iff_of_false (by decide) (fun hne => hne rfl)⟩
      · have hst : (get_server_info url tenant_id (.response status)).chromadb_status
            = "disconnected" := by
          show (if status = 200 then "connected" else "disconnected") = _
          rw [if_neg h]
        rw [hst]
        exact ⟨iff_of_false (by decide) (fun he => h (HealthOutcome.response.inj he)),
          iff_of_true rfl (fun he => h (HealthOutcome.response.inj he))⟩

/-- Claim C9: each formatted search result is a marker-prefixed block: the
high-relevance marker exactly when the distance is below 0.5, the ordinary
marker otherwise, and a provenance label chosen by metadata key (frame_ts
gives the visual-memory label, otherwise note_id gives the your-notes
label). -/
theorem result_markers_and_labels (r : SearchResultItem) :
    (r.distance.getD 0 < (0.5 : ℚ) →
        ∃ rest : String, format_result r = "ðŸ”¥" ++ (" " ++ rest)) ∧
    (¬ r.distance.getD 0 < (0.5 : ℚ) →
        ∃ rest : String, format_result r = "âœ“" ++ (" " ++ rest)) ∧
    ("frame_ts" ∈ r.metadata →
        ∃ a b : String,
          format_result r = a ++ ("   (from visual memory)\n" ++ b)) ∧
    ("frame_ts" ∉ r.metadata → "note_id" ∈ r.metadata →
        ∃ a b : String,
          format_result r = a ++ ("   (from your notes)\n" ++ b)) := by
  refine ⟨?_, ?_, ?_, ?_⟩
  · intro hd
    refine ⟨r.document.getD "" ++ "\n" ++ metadata_context r.metadata ++ "\n", ?_⟩
    rw [format_result, confidence_marker, if_pos hd]
    apply String.ext
    simp only [String.data_append, List.append_assoc]
  · intro hd
    refine ⟨r.document.getD "" ++ "\n" ++ metadata_context r.metadata ++ "\n", ?_⟩
    rw [format_result, confidence_marker, if_neg hd]
    apply String.ext
    simp only [String.data_append, List.append_assoc]
  · intro hm
    refine ⟨confidence_marker (r.distance.getD 0) ++ " " ++ r.document.getD ""
      ++ "\n", "\n", ?_⟩
    rw [format_result, metadata_context, if_pos hm]
    apply String.ext
    simp only [String.data_append, List.append_assoc]
  · intro hm1 hm2
    refine ⟨confidence_marker (r.distance.getD 0) ++ " " ++ r.document.getD ""
      ++ "\n", "\n", ?_⟩
    rw [format_result, metadata_context, if_neg hm1, if_pos hm2]
    apply String.ext
    simp only [String.data_append, List.append_assoc]

/-- Witness for claim C9 at concrete results below and above the
threshold. -/
theorem result_markers_and_labels_witness :
    (∃ rest : String,
        format_result ⟨some "keys on desk", some 0.25, ["frame_ts"]⟩
          = "ðŸ”¥" ++ (" " ++ rest)) ∧
    (∃ rest : String,
        format_result ⟨some "keys on desk", some 0.75, ["note_id"]⟩
          = "âœ“" ++ (" " ++ rest)) ∧
    (∃ a b : String,
        format_result ⟨some "keys on desk", some 0.25, ["frame_ts"]⟩
          = a ++ ("   (from visual memory)\n" ++ b)) ∧
    ∃ a b : String,
        format_result ⟨some "keys on desk", some 0.75, ["note_id"]⟩
          = a ++ ("   (from your notes)\n" ++ b) :=
  ⟨(result_markers_and_labels _).1 (show (0.25 : ℚ) < 0.5 by norm_num),
   (result_markers_and_labels _).2.1 (show ¬ (0.75 : ℚ) < 0.5 by norm_num),
   (result_markers_and_labels _).2.2.1 (by decide),
   (result_markers_and_labels _).2.2.2 (by decide) (by decide)⟩

/-- Claim C10: on a successful search with more than five matches, the
header reports the full match-list length while only the first five
results are formatted (in the order received), and metadata carrying both
keys gets only the visual-memory label. -/
theorem display_cap_and_label_precedence (tenant_id query : String)
    (n : Int) (results : List SearchResultItem)
    (httpS : SearchPayload → HttpOutcome SearchResponse)
    (hS : httpS (search_payload tenant_id query n)
        = .response 200 ⟨true, some results⟩)
    (hlen : 5 < results.length) :
    search_memory tenant_id query n httpS
        = Except.ok (py_strip (search_response_text results)) ∧
    search_response_text results
        = found_header results.length
          ++ String.join ((results.take 5).map format_result) ∧
    (results.take 5).length = 5 ∧
    ∀ md : List String, "frame_ts" ∈ md → "note_id" ∈ md →
      metadata_context md = "   (from visual memory)\n" := by
  refine ⟨?_, rfl, ?_, ?_⟩
  · rw [search_memory, hS]
    cases results with
    | nil => exact absurd hlen (by decide)
    | cons r rs => rfl
  · rw [List.length_take]
    exact min_eq_left (le_of_lt hlen)
  · intro md h1 h2
    rw [metadata_context, if_pos h1]

/-- Witness for claim C10 at a six-element match list whose first result
carries both metadata keys. -/
theorem display_cap_and_label_precedence_witness :
    search_memory "default_user" "keys" 9
        (fun _ => .response 200 ⟨true, some c10_results⟩)
      = Except.ok (py_strip (search_response_text c10_results)) ∧
    search_response_text c10_results
        = found_header c10_results.length
          ++ String.join ((c10_results.take 5).map format_result) ∧
    (c10_results.take 5).length = 5 ∧
    ∀ md : List String, "frame_ts" ∈ md → "note_id" ∈ md →
      metadata_context md = "   (from visual memory)\n" :=
  display_cap_and_label_precedence "default_user" "keys" 9 c10_results
    (fun _ => .response 200 ⟨true, some c10_results⟩) rfl (by decide)

end RemembarMCP
